import Mathlib

/-!
Verification of `src/cli/dstack/backend/aws/runners.py` (dstack AWS backend:
instance-lifecycle orchestration for ephemeral compute runners).

The Python module is shallowly embedded: pure helpers become Lean functions,
cloud/store calls become oracle parameters (the function receives the call's
result), exceptions become `Except` values, and mutation of job/runner records
becomes an explicit effect record.  Python truthiness of optional values is
made explicit through the `natTruthy` / `strTruthy` / `boolTruthy` helpers.

The core data model (`dstack/core/job.py`, `dstack/core/runners.py`,
`dstack/core/request.py`, `dstack/core/instance.py`) is not part of the
sources under verification; those types are modelled from the specification,
as marked on each declaration.
-/

namespace DstackAws

/-- Modelled from the spec: `JobStatus` enum of `dstack/core/job.py` (not under
`src/`): `SUBMITTED, DOWNLOADING, RUNNING, UPLOADING` and the transitional
`STOPPING` are unfinished; `STOPPED, FAILED, ABORTED` are finished/terminal. -/
inductive JobStatus where
  | submitted
  | downloading
  | running
  | uploading
  | stopping
  | stopped
  | failed
  | aborted
deriving Repr, DecidableEq

/-- Modelled from the spec: `JobStatus.is_unfinished` of `dstack/core/job.py`
(not under `src/`); true exactly on the non-terminal statuses. -/
def JobStatus.is_unfinished : JobStatus → Bool
  | .submitted => true
  | .downloading => true
  | .running => true
  | .uploading => true
  | .stopping => true
  | _ => false

/-- Modelled from the spec: `JobStatus.is_finished` of `dstack/core/job.py`
(not under `src/`): the complement of `is_unfinished`. -/
def JobStatus.is_finished (s : JobStatus) : Bool := !s.is_unfinished

/-- Modelled from the spec: `RequestStatus` enum of `dstack/core/request.py`
(not under `src/`). -/
inductive RequestStatus where
  | pending
  | running
  | no_capacity
  | terminated
deriving Repr, DecidableEq

/-- Modelled from the spec: `Gpu` of `dstack/core/runners.py` (not under
`src/`). -/
structure Gpu where
  name : String
  memory_mib : Nat
deriving Repr, DecidableEq

/-- Modelled from the spec: `Resources` of `dstack/core/runners.py` (not under
`src/`).  The gpu list and the two flags are `Option`s because the Python
fields may be unset (`None`); the serializer in `runners.py` normalizes them
with `or []` / `is True`. -/
structure Resources where
  cpus : Nat
  memory_mib : Nat
  gpus : Option (List Gpu)
  interruptible : Option Bool
  «local» : Option Bool
deriving Repr, DecidableEq

/-- Modelled from the spec: `InstanceType` of `dstack/core/instance.py` (not
under `src/`): an instance name plus its `Resources`. -/
structure InstanceType where
  instance_name : String
  resources : Resources
deriving Repr, DecidableEq

/-- Modelled from the spec: the GPU part of `Requirements`
(`dstack/core/job.py`, not under `src/`): optional count, per-GPU memory
floor, and exact model name. -/
structure GpusRequirements where
  count : Option Nat
  memory_mib : Option Nat
  name : Option String
deriving Repr, DecidableEq

/-- Modelled from the spec: `Requirements` of `dstack/core/job.py` (not under
`src/`): cpu / memory / gpu / interruptible / local constraints, all optional
(unset means unconstrained). -/
structure Requirements where
  cpus : Option Nat
  memory_mib : Option Nat
  gpus : Option GpusRequirements
  interruptible : Option Bool
  «local» : Option Bool
deriving Repr, DecidableEq

/-- Modelled from the spec: the slice of `Job` (`dstack/core/job.py`, not
under `src/`) that `runners.py` reads or writes: identity, mutable status,
runner/request ids, requirements, and the tagging identity strings. -/
structure Job where
  job_id : String
  repo_address : String
  status : JobStatus
  runner_id : Option String
  request_id : Option String
  requirements : Option Requirements
  local_repo_user_name : Option String
  local_repo_user_email : Option String
deriving Repr, DecidableEq

/-- Modelled from the spec: the lightweight job-head listing record returned
by `jobs.list_job_head` (module `dstack/backend/aws/jobs.py`, not under
`src/`); only its status is consulted by `stop_job`. -/
structure JobHead where
  status : JobStatus
deriving Repr, DecidableEq

/-- Modelled from the spec: `Runner` of `dstack/core/runners.py` (not under
`src/`): runner id, nullable provider request id, resources, and an embedded
`Job` snapshot. -/
structure Runner where
  runner_id : String
  request_id : Option String
  resources : Resources
  job : Job
deriving Repr, DecidableEq

/-- Modelled from the spec: `RequestHead` of `dstack/core/request.py` (not
under `src/`): the ephemeral projection `{job_id, status, message}`. -/
structure RequestHead where
  job_id : String
  status : RequestStatus
  message : Option String
deriving Repr, DecidableEq

/-- Python truthiness of an optional int: `None` and `0` are falsy. -/
def natTruthy (o : Option Nat) : Bool := o.getD 0 != 0

/-- Python truthiness of an optional string: `None` and `""` are falsy. -/
def strTruthy (o : Option String) : Bool := o.getD "" != ""

/-- Python truthiness of an optional bool: only `True` is truthy. -/
def boolTruthy (o : Option Bool) : Bool := o.getD false

/-- Embeds `_matches` (runners.py lines 118-144).  Note that in the source the
`requirements.interruptible` check (line 142) is nested inside the
`if requirements.gpus:` block (line 125), so it only runs when a GPU
requirement is present. -/
def _matches (resources : Resources) (requirements : Option Requirements) : Bool :=
  match requirements with
  | none => true
  | some req =>
    if natTruthy req.cpus && decide (req.cpus.getD 0 > resources.cpus) then false
    else if natTruthy req.memory_mib && decide (req.memory_mib.getD 0 > resources.memory_mib) then false
    else match req.gpus with
      | none => true
      | some g =>
        let gpu_count := if natTruthy g.count then g.count.getD 0 else 1
        if decide (gpu_count > (resources.gpus.getD []).length) then false
        else if strTruthy g.name
            && decide (gpu_count >
              ((resources.gpus.getD []).filter
                (fun gpu => gpu.name == g.name.getD "")).length) then false
        else if natTruthy g.memory_mib
            && decide (gpu_count >
              ((resources.gpus.getD []).filter
                (fun gpu => gpu.memory_mib ≥ g.memory_mib.getD 0)).length) then false
        else if boolTruthy req.interruptible && !boolTruthy resources.interruptible then false
        else true

/-- Embeds `_get_instance_type` (runners.py lines 147-173) over the catalog
list returned by `_get_instance_types` (received here as the `instance_types`
parameter, already in the catalog's ascending sorted order).  The Python
`next(... if _matches ...)` is `List.find?`; the returned copy's
`interruptible` is the Python expression `requirements and
requirements.interruptible`, and `local` is the literal `False`. -/
def _get_instance_type (instance_types : List InstanceType)
    (requirements : Option Requirements) : Option InstanceType :=
  match instance_types.find? (fun it => _matches it.resources requirements) with
  | none => none
  | some it =>
    some ⟨it.instance_name,
      { cpus := it.resources.cpus
        memory_mib := it.resources.memory_mib
        gpus := it.resources.gpus
        interruptible := requirements.bind Requirements.interruptible
        «local» := some false }⟩

/-- Modelled from the spec: the serialized form of a `Job` snapshot produced
by `Job.serialize` (`dstack/core/job.py`, not under `src/`).  The spec's
Runner-Store round-trip property presumes the embedded Job snapshot serializes
losslessly, so the document is modelled as a field-for-field record. -/
structure JobData where
  job_id : String
  repo_address : String
  status : JobStatus
  runner_id : Option String
  request_id : Option String
  requirements : Option Requirements
  local_repo_user_name : Option String
  local_repo_user_email : Option String
deriving Repr, DecidableEq

/-- Modelled from the spec: `Job.serialize` (`dstack/core/job.py`, not under
`src/`), a lossless encoding of the job snapshot. -/
def Job.serialize (j : Job) : JobData :=
  ⟨j.job_id, j.repo_address, j.status, j.runner_id, j.request_id,
    j.requirements, j.local_repo_user_name, j.local_repo_user_email⟩

/-- Modelled from the spec: `Job.unserialize` (`dstack/core/job.py`, not under
`src/`), inverse of `Job.serialize`. -/
def Job.unserialize (d : JobData) : Job :=
  ⟨d.job_id, d.repo_address, d.status, d.runner_id, d.request_id,
    d.requirements, d.local_repo_user_name, d.local_repo_user_email⟩

/-- One serialized gpu entry (`{"name": ..., "memory_mib": ...}`) of
`_serialize_runner` (runners.py lines 26-32). -/
structure GpuData where
  name : String
  memory_mib : Nat
deriving Repr, DecidableEq

/-- The serialized `resources` sub-document of `_serialize_runner`
(runners.py lines 23-35): gpu list always present, flags normalized to plain
booleans by `is True`. -/
structure ResourcesData where
  cpus : Nat
  memory_mib : Nat
  gpus : List GpuData
  interruptible : Bool
  «local» : Bool
deriving Repr, DecidableEq

/-- The serialized runner document of `_serialize_runner`
(runners.py lines 36-41). -/
structure RunnerData where
  runner_id : String
  request_id : Option String
  resources : ResourcesData
  job : JobData
deriving Repr, DecidableEq

/-- Embeds `_serialize_runner` (runners.py lines 22-42): gpu list defaulted
with `or []`, flags normalized with `is True`. -/
def _serialize_runner (runner : Runner) : RunnerData :=
  { runner_id := runner.runner_id
    request_id := runner.request_id
    resources :=
      { cpus := runner.resources.cpus
        memory_mib := runner.resources.memory_mib
        gpus := (runner.resources.gpus.getD []).map (fun gpu => ⟨gpu.name, gpu.memory_mib⟩)
        interruptible := runner.resources.interruptible == some true
        «local» := runner.resources.«local» == some true }
    job := runner.job.serialize }

/-- Embeds `_unserialize_runner` (runners.py lines 45-57).  The stored
`interruptible` / `local` values are already plain booleans, so the source's
`is True` / `.get(...) is True` is the value itself. -/
def _unserialize_runner (data : RunnerData) : Runner :=
  { runner_id := data.runner_id
    request_id := data.request_id
    resources :=
      { cpus := data.resources.cpus
        memory_mib := data.resources.memory_mib
        gpus := some (data.resources.gpus.map (fun g => Gpu.mk g.name g.memory_mib))
        interruptible := some data.resources.interruptible
        «local» := some data.resources.«local» }
    job := Job.unserialize data.job }

/-- The normalization the Runner-Store round trip applies, as the spec states
it: an absent gpu list comes back as the empty list, and unset
`interruptible` / `local` flags come back as `false`. -/
def normalizeRunner (r : Runner) : Runner :=
  { r with resources :=
      { r.resources with
          gpus := some (r.resources.gpus.getD [])
          interruptible := some (r.resources.interruptible == some true)
          «local» := some (r.resources.«local» == some true) } }

/-- Python exceptions as `runners.py` distinguishes them: botocore client
errors carrying `e.response["Error"]["Code"]` / `["Message"]`, the wrapping
`Exception("Failed to retry", e)`, and plain internal `Exception(msg)`. -/
inductive PyErr where
  | aws (code : String) (message : Option String)
  | wrapped (message : String) (inner : PyErr)
  | internal (message : String)
deriving Repr, DecidableEq

/-- The `e.response["Error"]["Code"]` lookup (guarded by `hasattr` in the
source): only botocore client errors have a code. -/
def PyErr.code? : PyErr → Option String
  | .aws c _ => some c
  | _ => none

/-- The `e.response["Error"]["Message"]` lookup. -/
def PyErr.message? : PyErr → Option String
  | .aws _ m => m
  | _ => none

/-- Embeds `_run_instance_retry` (runners.py lines 561-611) with the
underlying `_run_instance` call abstracted as an oracle from the call index
(0-based) to its result.  Returns the source function's outcome paired with
the number of `_run_instance` attempts performed.  A success returns the id;
an `InvalidParameterValue` error with `attempts > 0` recurses with
`attempts - 1`; with `attempts == 0` it raises `Exception("Failed to retry",
e)`; any other error is re-raised unchanged. -/
def _run_instance_retryAux (launch : Nat → Except PyErr String)
    (i : Nat) (attempts : Nat) : Except PyErr String × Nat :=
  match launch i with
  | .ok request_id => (.ok request_id, 1)
  | .error e =>
    if e.code? == some "InvalidParameterValue" then
      match attempts with
      | a + 1 =>
        let rest := _run_instance_retryAux launch (i + 1) a
        (rest.1, rest.2 + 1)
      | 0 => (.error (.wrapped "Failed to retry" e), 1)
    else (.error e, 1)

/-- `_run_instance_retry` entered at its first call; the source's default is
`attempts = 3`. -/
def _run_instance_retry (launch : Nat → Except PyErr String)
    (attempts : Nat) : Except PyErr String × Nat :=
  _run_instance_retryAux launch 0 attempts

/-- A launch oracle that fails with the transient error class on the first
`k` calls and then succeeds. -/
def launchFailsThenOk (e : PyErr) (k : Nat) (rid : String) :
    Nat → Except PyErr String :=
  fun i => if i < k then .error e else .ok rid

/-- A launch oracle that always fails with the same error. -/
def launchAlwaysFails (e : PyErr) : Nat → Except PyErr String :=
  fun _ => .error e

/-- The concrete transient launch error used in the C3 counterexample. -/
def invalidParamErr : PyErr := .aws "InvalidParameterValue" (some "bad parameter")

/-- The outcome of `run_job`: normal return, `sys.exit` (a `SystemExit`, which
is *not* caught by the `except Exception` block), or a re-raised exception. -/
inductive RunJobOutcome where
  | ok
  | sysExit (message : String)
  | raised (e : PyErr)
deriving Repr, DecidableEq

/-- The oracle world for `run_job` (runners.py lines 614-656): the fresh
runner id from `uuid.uuid4().hex`, and the results of `_get_instance_type`,
`_create_runner`, `_run_instance_retry` and `_update_runner`.  The job-store
writes (`jobs.update_job`) are recorded in the returned trace. -/
structure RunJobWorld where
  newRunnerId : String
  instanceTypeResult : Except PyErr (Option InstanceType)
  createRunnerResult : Except PyErr Unit
  launchResult : Except PyErr String
  updateRunnerResult : Except PyErr Unit

/-- Embeds `run_job` (runners.py lines 614-656).  Returns the outcome together
with the ordered list of job records written through `jobs.update_job`.  The
`except Exception` handler (lines 652-656) sets `job.status = FAILED` and
`job.request_id = runner.request_id if runner else None`, writes the job, then
re-raises; the no-matching-instance branch (lines 632-635) marks the job
FAILED and calls `sys.exit`, which bypasses the handler. -/
def run_job (w : RunJobWorld) (job : Job) : RunJobOutcome × List Job :=
  if job.status != JobStatus.submitted then
    (.raised (.internal "Can't create a request for a job which status is not SUBMITTED"), [])
  else
    let job1 : Job := { job with runner_id := some w.newRunnerId }
    match w.instanceTypeResult with
    | .error e =>
      -- runner is still None here
      (.raised e, [job1, { job1 with status := .failed, request_id := none }])
    | .ok none =>
      (.sysExit "No instance type matching requirements.",
        [job1, { job1 with status := .failed }])
    | .ok (some _) =>
      -- runner = Runner(job.runner_id, None, instance_type.resources, job)
      match w.createRunnerResult with
      | .error e =>
        (.raised e, [job1, { job1 with status := .failed, request_id := none }])
      | .ok _ =>
        match w.launchResult with
        | .error e =>
          -- runner exists but runner.request_id is still None
          (.raised e, [job1, { job1 with status := .failed, request_id := none }])
        | .ok rid =>
          match w.updateRunnerResult with
          | .error e =>
            -- runner.request_id was assigned the launch result
            (.raised e, [job1, { job1 with status := .failed, request_id := some rid }])
          | .ok _ => (.ok, [job1])

/-- The request id `run_job` obtained before failing: the launch result when
instance selection, runner creation and the launch all succeeded, else none
(mirrors `runner.request_id if runner else None` at line 654, given that
`runner.request_id` is only assigned from a successful
`_run_instance_retry`). -/
def obtainedRequestId (w : RunJobWorld) : Option String :=
  match w.instanceTypeResult with
  | .ok (some _) =>
    match w.createRunnerResult with
    | .ok _ =>
      match w.launchResult with
      | .ok rid => some rid
      | .error _ => none
    | .error _ => none
  | _ => none

/-- One spot-instance-request status entry as read from
`response["SpotInstanceRequests"][i]["Status"]`. -/
structure SpotStatus where
  code : String
  message : Option String
deriving Repr, DecidableEq

/-- Spot status codes mapped to RUNNING (runners.py lines 739-742). -/
def spotCodesRunning : List String :=
  ["fulfilled", "request-canceled-and-instance-running"]

/-- Spot status codes mapped to PENDING (runners.py lines 744-748). -/
def spotCodesPending : List String :=
  ["not-scheduled-yet", "pending-evaluation", "pending-fulfillment"]

/-- Spot status codes mapped to NO_CAPACITY (runners.py lines 750-758). -/
def spotCodesNoCapacity : List String :=
  ["capacity-not-available", "instance-stopped-no-capacity",
   "instance-terminated-by-price", "instance-stopped-by-price",
   "instance-terminated-no-capacity", "limit-exceeded", "price-too-low"]

/-- Spot status codes mapped to TERMINATED (runners.py lines 760-768). -/
def spotCodesTerminated : List String :=
  ["instance-terminated-by-user", "instance-stopped-by-user",
   "canceled-before-fulfillment", "instance-terminated-by-schedule",
   "instance-terminated-by-service", "spot-instance-terminated-by-user",
   "marked-for-stop", "marked-for-termination"]

/-- Embeds `get_request_head` (runners.py lines 707-831).  The two provider
calls are oracles: `spotApi` is `describe_spot_instance_requests` (the list of
status entries, or an exception), `instApi` is `describe_instances` (the first
instance's state name, `none` for an empty reservation list, or an
exception); `runnerStoreGet` is the result of `_get_runner` on the job's
runner id.  Raising becomes `Except.error`; the unknown-code branch raises the
source's internal `Exception`. -/
def get_request_head
    (spotApi : String → Except PyErr (List SpotStatus))
    (instApi : String → Except PyErr (Option String))
    (runnerStoreGet : Option String → Option Runner)
    (job : Job) (runner : Option Runner) : Except PyErr RequestHead :=
  let interruptible := boolTruthy (job.requirements.bind Requirements.interruptible)
  -- request-id resolution (lines 716-724)
  let request_id : Option String :=
    if strTruthy job.request_id then job.request_id
    else match runner with
      | some r => if strTruthy r.request_id then r.request_id else none
      | none =>
        match runnerStoreGet job.runner_id with
        | some r => r.request_id
        | none => none
  if strTruthy request_id then
    let rid := request_id.getD ""
    if interruptible then
      match spotApi rid with
      | .ok reqs =>
        match reqs with
        | [] => .ok ⟨job.job_id, .terminated, none⟩
        | status :: _ =>
          if spotCodesRunning.contains status.code then
            .ok ⟨job.job_id, .running, status.message⟩
          else if spotCodesPending.contains status.code then
            .ok ⟨job.job_id, .pending, status.message⟩
          else if spotCodesNoCapacity.contains status.code then
            .ok ⟨job.job_id, .no_capacity, status.message⟩
          else if spotCodesTerminated.contains status.code then
            .ok ⟨job.job_id, .terminated, status.message⟩
          else
            .error (.internal
              ("Unsupported EC2 spot instance request status code: " ++ status.code))
      | .error e =>
        if e.code? == some "InvalidSpotInstanceRequestID.NotFound" then
          .ok ⟨job.job_id, .terminated, e.message?⟩
        else .error e
    else
      match instApi rid with
      | .ok (some stateName) =>
        if stateName == "running" then .ok ⟨job.job_id, .running, none⟩
        else if stateName == "pending" then .ok ⟨job.job_id, .pending, none⟩
        else if ["shutting-down", "terminated", "stopping", "stopped"].contains stateName then
          .ok ⟨job.job_id, .terminated, none⟩
        else .error (.internal ("Unsupported EC2 instance state name: " ++ stateName))
      | .ok none => .ok ⟨job.job_id, .terminated, none⟩
      | .error e =>
        if e.code? == some "InvalidInstanceID.NotFound" then
          .ok ⟨job.job_id, .terminated, e.message?⟩
        else .error e
  else
    .ok ⟨job.job_id, .terminated,
      some (if interruptible then "The spot instance request ID is not specified"
            else "The instance ID is not specified")⟩

/-- The mutations `stop_job` may perform: a runner teardown (`_stop_runner` =
cloud teardown + runner-record deletion), a runner-record update
(`_update_runner`), and a job-record update (`jobs.update_job`). -/
structure StopEffects where
  stoppedRunner : Option Runner
  updatedRunner : Option Runner
  updatedJob : Option Job
deriving Repr, DecidableEq

/-- No mutation performed. -/
def noStopEffects : StopEffects := ⟨none, none, none⟩

/-- The "is anything still unfinished" disjunction of `stop_job`
(runners.py lines 862-870). -/
def anyUnfinished (job_head : Option JobHead) (job : Option Job)
    (runner : Option Runner) (request_status : RequestStatus) : Bool :=
  (match job_head with | some h => h.status.is_unfinished | none => false)
  || (match job with | some j => j.status.is_unfinished | none => false)
  || (match runner with | some r => r.job.status.is_unfinished | none => false)
  || request_status != RequestStatus.terminated

/-- The target-status decision of `stop_job` (runners.py lines 871-890):
`abort` forces ABORTED; early provisioning phases, an already-terminated
request, or a missing job/job-head/runner yield STOPPED; a job not yet
UPLOADING yields STOPPING; an actively uploading job gets no status change. -/
def stopJobNewStatus (abort : Bool) (job_head : Option JobHead) (job : Option Job)
    (runner : Option Runner) (request_status : RequestStatus) : Option JobStatus :=
  if abort then some .aborted
  else if !job_head.isSome
      || (match job_head with
          | some h => h.status == .submitted || h.status == .downloading
          | none => false)
      || !job.isSome
      || (match job with
          | some j => j.status == .submitted || j.status == .downloading
          | none => false)
      || request_status == RequestStatus.terminated
      || !runner.isSome then some .stopped
  else if (match job_head with | some h => h.status != .uploading | none => false)
      || (match job with | some j => j.status != .uploading | none => false) then
    some .stopping
  else none

/-- Embeds `stop_job` (runners.py lines 846-907).  The store/provider reads
are parameters: `job_head` is `jobs.list_job_head`'s result, `job` is
`jobs.get_job`'s result, `runnerStore` is `_get_runner`'s result (consulted
only when the job exists, line 856), and `live` is the status of
`get_request_head` (computed only when the job exists, lines 857-861).
Returns the performed mutations; the source's unconditional
`job.status = new_status` on line 906 is an `AttributeError` when `job` is
`None`, modelled as `Except.error`. -/
def stop_job (abort : Bool) (job_head : Option JobHead) (job : Option Job)
    (runnerStore : Option Runner) (live : RequestStatus) : Except String StopEffects :=
  let runner : Option Runner := if job.isSome then runnerStore else none
  let request_status : RequestStatus := if job.isSome then live else .terminated
  if anyUnfinished job_head job runner request_status then
    match stopJobNewStatus abort job_head job runner request_status with
    | some new_status =>
      let runnerEffects : StopEffects :=
        match runner with
        | some r =>
          if r.job.status.is_unfinished && r.job.status != new_status then
            if new_status.is_finished then ⟨some r, none, none⟩
            else ⟨none, some { r with job := { r.job with status := new_status } }, none⟩
          else noStopEffects
        | none => noStopEffects
      if (match job_head with
          | some h => h.status.is_unfinished && h.status != new_status
          | none => false)
        || (match job with
            | some j => j.status.is_unfinished && j.status != new_status
            | none => false) then
        match job with
        | some j => .ok { runnerEffects with updatedJob := some { j with status := new_status } }
        | none => .error "AttributeError"
      else .ok runnerEffects
    | none => .ok noStopEffects
  else .ok noStopEffects

/-- Resources with no interruptible capability and no GPUs. -/
def resNoSpot : Resources := ⟨4, 16384, some [], none, some false⟩

/-- Requirements that set only the interruptible flag (no GPU requirement). -/
def reqInterruptibleOnly : Requirements := ⟨none, none, none, some true, none⟩

/-- The spec's C5 GPU list: memories `[8000, 16000, 16000]`. -/
def gpusMemOnly : List Gpu := [⟨"K80", 8000⟩, ⟨"V100", 16000⟩, ⟨"V100", 16000⟩]

/-- Resources carrying `gpusMemOnly`. -/
def resMemOnly : Resources := ⟨8, 61440, some gpusMemOnly, some true, some false⟩

/-- Requirements requesting `gpu_count=2, gpu_memory_mib=16000`, no name. -/
def reqMemOnly : Requirements := ⟨none, none, some ⟨some 2, some 16000, none⟩, none, none⟩

/-- A GPU list where no single GPU satisfies both the name "A" and the
16000 MiB memory floor, though two satisfy each filter separately. -/
def gpusDisjoint : List Gpu := [⟨"A", 8000⟩, ⟨"A", 8000⟩, ⟨"B", 16000⟩, ⟨"B", 16000⟩]

/-- Resources carrying `gpusDisjoint`. -/
def resDisjoint : Resources := ⟨8, 61440, some gpusDisjoint, none, some false⟩

/-- Requirements requesting 2 GPUs named "A" with a 16000 MiB memory floor. -/
def reqDisjoint : Requirements := ⟨none, none, some ⟨some 2, some 16000, some "A"⟩, none, none⟩

/-- A catalog entry with no GPUs (fails a GPU requirement). -/
def catalogSmall : InstanceType := ⟨"c5.xlarge", ⟨4, 8192, some [], some true, some false⟩⟩

/-- A catalog entry with one 16000 MiB GPU, natively interruptible-capable. -/
def catalogBig : InstanceType :=
  ⟨"p3.2xlarge", ⟨8, 61440, some [⟨"V100", 16000⟩], some true, some false⟩⟩

/-- A two-entry catalog in ascending order. -/
def catalogTwo : List InstanceType := [catalogSmall, catalogBig]

/-- Requirements asking for 4 cpus and one 16000 MiB GPU, with the
interruptible flag left unset. -/
def reqGpuOnly : Requirements :=
  ⟨some 4, none, some ⟨some 1, some 16000, none⟩, none, none⟩

/-- The instance type `_get_instance_type` returns for `reqGpuOnly` over
`catalogTwo`: `catalogBig`'s name and sizes, but `interruptible` taken from
the requirement (unset) rather than the catalog's native `some true`, and
`local` forced false. -/
def itCopyExpected : InstanceType :=
  ⟨"p3.2xlarge", ⟨8, 61440, some [⟨"V100", 16000⟩], none, some false⟩⟩

/-- An interruptible job with a job-level request id, for the C4 witness. -/
def jobSpot : Job :=
  ⟨"job-1", "github.com/acme/repo", .running, some "runner-1", some "sir-1",
    some reqInterruptibleOnly, none, none⟩

/-- A freshly submitted job, for the C7 witness. -/
def jobSubmitted : Job :=
  ⟨"job-2", "github.com/acme/repo", .submitted, none, none, none, none, none⟩

/-- A `run_job` world whose cloud launch fails after instance selection and
runner creation succeeded, for the C7 witness. -/
def worldLaunchFails : RunJobWorld :=
  ⟨"4f2e", .ok (some catalogBig), .ok (), .error (.aws "InsufficientInstanceCapacity" none), .ok ()⟩

/-- A job still DOWNLOADING, for the C8 witness. -/
def jobDownloading : Job :=
  ⟨"job-3", "github.com/acme/repo", .downloading, some "runner-3", none, none, none, none⟩

/-- A fully stopped job, for the C2 witness. -/
def jobStopped : Job :=
  ⟨"job-4", "github.com/acme/repo", .stopped, some "runner-4", some "i-4", none, none, none⟩

/-- A runner whose embedded job snapshot is already stopped, for the C2
witness. -/
def runnerStopped : Runner :=
  ⟨"runner-4", some "i-4", ⟨4, 8192, some [], some false, some false⟩, jobStopped⟩

/-- An unfinished status never equals a finished one. -/
theorem JobStatus.unfinished_ne_of_finished {s t : JobStatus}
    (hs : s.is_unfinished = true) (ht : t.is_unfinished = false) : s ≠ t := by
  intro h
  rw [h] at hs
  rw [hs] at ht
  exact Bool.noConfusion ht

/-- The modelled `Job` snapshot serialization is lossless. -/
theorem job_serialize_round_trip (j : Job) : Job.unserialize j.serialize = j := by
  cases j
  rfl

/-- C1 counterexample: requirements that set `interruptible` but no GPU
requirement match resources with no interruptible capability, because the
source's interruptible check (line 142) is nested inside the
`if requirements.gpus:` block — contradicting the claim that an interruptible
requirement never matches a non-interruptible-capable resource regardless of
whether a GPU requirement is present. -/
theorem matches_interruptible_skipped_without_gpus :
    boolTruthy reqInterruptibleOnly.interruptible = true
    ∧ boolTruthy resNoSpot.interruptible = false
    ∧ reqInterruptibleOnly.gpus = none
    ∧ _matches resNoSpot (some reqInterruptibleOnly) = true := by
  decide

/-- C1 (amended): when the requirements set the interruptible flag AND carry a
GPU requirement, `_matches` returns true only if the resources are
interruptible-capable; without a GPU requirement the interruptible flag is not
checked at all. -/
theorem matches_interruptible_requires_capability_with_gpus
    (res : Resources) (req : Requirements) (g : GpusRequirements)
    (hg : req.gpus = some g)
    (hint : boolTruthy req.interruptible = true)
    (hres : boolTruthy res.interruptible = false) :
    _matches res (some req) = false := by
  simp [_matches, hg, hint, hres]

/-- Witness for `matches_interruptible_requires_capability_with_gpus` at a
concrete non-interruptible resource and a GPU-carrying requirement. -/
theorem matches_interruptible_requires_capability_with_gpus_witness :
    _matches (Resources.mk 4 16384 (some [Gpu.mk "V100" 16000]) (some false) (some false))
      (some (Requirements.mk none none (some (GpusRequirements.mk (some 1) none none))
        (some true) none)) = false :=
  matches_interruptible_requires_capability_with_gpus
    (Resources.mk 4 16384 (some [Gpu.mk "V100" 16000]) (some false) (some false))
    (Requirements.mk none none (some (GpusRequirements.mk (some 1) none none))
      (some true) none)
    (GpusRequirements.mk (some 1) none none) rfl (by decide) (by decide)

/-- C5: the GPU-name and GPU-memory sub-filters of `_matches` are evaluated
independently over the whole GPU list.  First: `gpu_count=2,
gpu_memory_mib=16000` (no name) matches GPUs with memories
`[8000, 16000, 16000]`, since exactly 2 GPUs meet the memory floor.  Second:
a name+memory requirement matches `gpusDisjoint` even though zero GPUs
satisfy both filters simultaneously — each filter separately finds 2
qualifying GPUs. -/
theorem matches_gpu_filters_independent :
    _matches resMemOnly (some reqMemOnly) = true
    ∧ (gpusMemOnly.filter (fun g => decide (g.memory_mib ≥ 16000))).length = 2
    ∧ _matches resDisjoint (some reqDisjoint) = true
    ∧ (gpusDisjoint.filter
        (fun g => g.name == "A" && decide (g.memory_mib ≥ 16000))).length = 0 := by
  decide

/-- C9: the Runner Store round trip `_unserialize_runner ∘ _serialize_runner`
reproduces the Runner up to the spec's stated normalization (absent GPU list
comes back as the empty list, unset flags come back as false), and on an
already-normalized Runner it is exactly the identity. -/
theorem runner_serialization_round_trip (r : Runner) :
    _unserialize_runner (_serialize_runner r) = normalizeRunner r
    ∧ _unserialize_runner (_serialize_runner (normalizeRunner r)) = normalizeRunner r := by
  constructor
  · cases r with
    | mk rid req res job =>
      cases res
      simp [_serialize_runner, _unserialize_runner, normalizeRunner,
        job_serialize_round_trip]
      exact List.map_id'' (fun _ => rfl) _
  · cases r with
    | mk rid req res job =>
      cases res
      simp [_serialize_runner, _unserialize_runner, normalizeRunner,
        job_serialize_round_trip]
      exact List.map_id'' (fun _ => rfl) _

/-- C3 counterexample: the wrapped failure raised after exhausting retries
does not carry the retry count.  The source raises
`Exception("Failed to retry", e)` — the fixed message plus the original
error — so running with retry budgets 3 and 1 performs different numbers of
attempts (4 vs 2) yet raises *identical* failures; a failure that carried the
retry count would have to differ. -/
theorem run_instance_retry_wrapped_error_lacks_retry_count :
    (_run_instance_retry (launchAlwaysFails invalidParamErr) 3).2 = 4
    ∧ (_run_instance_retry (launchAlwaysFails invalidParamErr) 1).2 = 2
    ∧ (_run_instance_retry (launchAlwaysFails invalidParamErr) 3).1
      = (_run_instance_retry (launchAlwaysFails invalidParamErr) 1).1
    ∧ (_run_instance_retry (launchAlwaysFails invalidParamErr) 3).1
      = .error (.wrapped "Failed to retry" invalidParamErr) :=
  ⟨rfl, rfl, rfl, rfl⟩

/-- C3 (amended): with the transient "invalid parameter" error class failing
exactly twice then succeeding, `_run_instance_retry` (budget 3) returns the
success result after exactly 3 attempts; always failing with that class, it
raises `Exception("Failed to retry", e)` — wrapping the original error, not
the retry count — after exactly 4 attempts (1 initial + 3 retries); any other
error class propagates unchanged after exactly 1 attempt. -/
theorem run_instance_retry_attempt_counts (e eo : PyErr) (rid : String)
    (h : e.code? = some "InvalidParameterValue")
    (ho : eo.code? ≠ some "InvalidParameterValue") :
    _run_instance_retry (launchFailsThenOk e 2 rid) 3 = (.ok rid, 3)
    ∧ _run_instance_retry (launchAlwaysFails e) 3
      = (.error (.wrapped "Failed to retry" e), 4)
    ∧ _run_instance_retry (launchAlwaysFails eo) 3 = (.error eo, 1) := by
  refine ⟨?_, ?_, ?_⟩
  · simp [_run_instance_retry, _run_instance_retryAux, launchFailsThenOk, h]
  · simp [_run_instance_retry, _run_instance_retryAux, launchAlwaysFails, h]
  · simp [_run_instance_retry, _run_instance_retryAux, launchAlwaysFails, ho]

/-- Witness for `run_instance_retry_attempt_counts` at the concrete transient
error class and a concrete non-transient error. -/
theorem run_instance_retry_attempt_counts_witness :
    _run_instance_retry (launchFailsThenOk invalidParamErr 2 "i-123") 3 = (.ok "i-123", 3)
    ∧ _run_instance_retry (launchAlwaysFails invalidParamErr) 3
      = (.error (.wrapped "Failed to retry" invalidParamErr), 4)
    ∧ _run_instance_retry (launchAlwaysFails (PyErr.aws "AccessDenied" none)) 3
      = (.error (PyErr.aws "AccessDenied" none), 1) :=
  run_instance_retry_attempt_counts invalidParamErr (PyErr.aws "AccessDenied" none)
    "i-123" (by decide) (by decide)

/-- C2: when the job-head, the job record and the runner's embedded job are
all finished and the live request status is TERMINATED, `stop_job` performs no
mutation at all — no job update, no runner update, no runner deletion, no
cloud teardown.  In particular a second `stop_job` on an already-STOPPED job
(all records STOPPED, request TERMINATED) is a no-op. -/
theorem stop_job_noop_when_all_finished (abort : Bool) (hd : JobHead) (j : Job) (r : Runner)
    (h1 : hd.status.is_unfinished = false)
    (h2 : j.status.is_unfinished = false)
    (h3 : r.job.status.is_unfinished = false) :
    stop_job abort (some hd) (some j) (some r) RequestStatus.terminated
      = Except.ok noStopEffects := by
  simp [stop_job, anyUnfinished, h1, h2, h3]

/-- Witness for `stop_job_noop_when_all_finished`: a second stop on an
already-STOPPED job mutates nothing. -/
theorem stop_job_noop_when_all_finished_witness :
    stop_job false (some ⟨JobStatus.stopped⟩) (some jobStopped) (some runnerStopped)
      RequestStatus.terminated = Except.ok noStopEffects :=
  stop_job_noop_when_all_finished false ⟨JobStatus.stopped⟩ jobStopped runnerStopped
    rfl rfl rfl

/-- C6: whenever `_get_instance_type` returns an instance type, that type is
the first catalog entry (in the catalog's order) whose native resources
satisfy `_matches` against the requirements, and the returned copy keeps the
native name/cpu/memory/gpus but carries the requirement's requested
`interruptible` value (not the catalog's native capability flag) and `local`
forced false. -/
theorem get_instance_type_first_match_flags
    (instance_types : List InstanceType) (req : Requirements) (it : InstanceType)
    (h : _get_instance_type instance_types (some req) = some it) :
    ∃ nativeIt,
      instance_types.find? (fun t => _matches t.resources (some req)) = some nativeIt
      ∧ _matches nativeIt.resources (some req) = true
      ∧ it.instance_name = nativeIt.instance_name
      ∧ it.resources.cpus = nativeIt.resources.cpus
      ∧ it.resources.memory_mib = nativeIt.resources.memory_mib
      ∧ it.resources.gpus = nativeIt.resources.gpus
      ∧ it.resources.interruptible = req.interruptible
      ∧ it.resources.«local» = some false := by
  unfold _get_instance_type at h
  cases hf : instance_types.find? (fun t => _matches t.resources (some req)) with
  | none => rw [hf] at h; cases h
  | some nativeIt =>
    rw [hf] at h
    simp only [Option.some.injEq] at h
    refine ⟨nativeIt, rfl, ?_, ?_⟩
    · simpa using List.find?_some hf
    · rw [← h]
      exact ⟨rfl, rfl, rfl, rfl, rfl, rfl⟩

/-- Witness for `get_instance_type_first_match_flags`: over `catalogTwo`, the
GPU requirement with `interruptible` unset selects `catalogBig` and the copy
drops the native `interruptible = some true` in favor of the requested unset
value. -/
theorem get_instance_type_first_match_flags_witness :
    ∃ nativeIt,
      catalogTwo.find? (fun t => _matches t.resources (some reqGpuOnly)) = some nativeIt
      ∧ _matches nativeIt.resources (some reqGpuOnly) = true
      ∧ itCopyExpected.instance_name = nativeIt.instance_name
      ∧ itCopyExpected.resources.cpus = nativeIt.resources.cpus
      ∧ itCopyExpected.resources.memory_mib = nativeIt.resources.memory_mib
      ∧ itCopyExpected.resources.gpus = nativeIt.resources.gpus
      ∧ itCopyExpected.resources.interruptible = reqGpuOnly.interruptible
      ∧ itCopyExpected.resources.«local» = some false :=
  get_instance_type_first_match_flags catalogTwo reqGpuOnly itCopyExpected rfl

/-- C7: for a SUBMITTED job, whenever `run_job` re-raises an exception, the
last job-store write before the re-raise marks the job FAILED, carrying the
runner's request id when the launch succeeded (exception came later) and null
otherwise, with the freshly assigned runner id in place. -/
theorem run_job_marks_failed_on_exception (w : RunJobWorld) (job : Job) (e : PyErr)
    (hs : job.status = JobStatus.submitted)
    (hr : (run_job w job).1 = .raised e) :
    ∃ jf, (run_job w job).2.getLast? = some jf
      ∧ jf.status = JobStatus.failed
      ∧ jf.request_id = obtainedRequestId w
      ∧ jf.runner_id = some w.newRunnerId := by
  rcases w with ⟨nid, itr, crr, lr, urr⟩
  simp only [run_job, obtainedRequestId, hs, bne_self_eq_false, Bool.false_eq_true,
    if_false] at hr ⊢
  rcases itr with it | it
  · cases hr
    exact ⟨_, rfl, rfl, rfl, rfl⟩
  · rcases it with _ | it
    · cases hr
    · rcases crr with ec | _
      · cases hr
        exact ⟨_, rfl, rfl, rfl, rfl⟩
      · rcases lr with el | rid
        · cases hr
          exact ⟨_, rfl, rfl, rfl, rfl⟩
        · rcases urr with eu | _
          · cases hr
            exact ⟨_, rfl, rfl, rfl, rfl⟩
          · cases hr

/-- Witness for `run_job_marks_failed_on_exception`: a failed cloud launch on
a submitted job leaves a FAILED job record with no request id. -/
theorem run_job_marks_failed_on_exception_witness :
    ∃ jf, (run_job worldLaunchFails jobSubmitted).2.getLast? = some jf
      ∧ jf.status = JobStatus.failed
      ∧ jf.request_id = obtainedRequestId worldLaunchFails
      ∧ jf.runner_id = some worldLaunchFails.newRunnerId :=
  run_job_marks_failed_on_exception worldLaunchFails jobSubmitted
    (.aws "InsufficientInstanceCapacity" none) rfl rfl

/-- C8: with `abort = true`, `stop_job`'s target status is ABORTED for every
combination of job-head, job, runner and request status — regardless of the
job's current phase — and when the job record itself is unfinished it is
updated to ABORTED. -/
theorem stop_job_abort_yields_aborted (job_head : Option JobHead) (job : Option Job)
    (runnerStore : Option Runner) (live : RequestStatus) (j : Job)
    (hj : job = some j) (hunf : j.status.is_unfinished = true) :
    stopJobNewStatus true job_head job
        (if job.isSome then runnerStore else none)
        (if job.isSome then live else RequestStatus.terminated) = some JobStatus.aborted
    ∧ ∃ eff, stop_job true job_head job runnerStore live = Except.ok eff
      ∧ eff.updatedJob = some { j with status := JobStatus.aborted } := by
  subst hj
  have hne : j.status ≠ JobStatus.aborted := JobStatus.unfinished_ne_of_finished hunf rfl
  refine ⟨rfl, ?_⟩
  cases runnerStore with
  | none =>
    refine ⟨⟨none, none, some { j with status := JobStatus.aborted }⟩, ?_, rfl⟩
    simp [stop_job, anyUnfinished, stopJobNewStatus, noStopEffects, hunf, hne]
  | some r =>
    by_cases hru : r.job.status.is_unfinished = true
    · have hrne : r.job.status ≠ JobStatus.aborted :=
        JobStatus.unfinished_ne_of_finished hru rfl
      have hfin : JobStatus.is_finished JobStatus.aborted = true := rfl
      refine ⟨⟨some r, none, some { j with status := JobStatus.aborted }⟩, ?_, rfl⟩
      simp [stop_job, anyUnfinished, stopJobNewStatus, noStopEffects,
        hfin, hunf, hne, hru, hrne]
    · refine ⟨⟨none, none, some { j with status := JobStatus.aborted }⟩, ?_, rfl⟩
      simp [stop_job, anyUnfinished, stopJobNewStatus, noStopEffects, hunf, hne, hru]

/-- Witness for `stop_job_abort_yields_aborted`: aborting a job still
DOWNLOADING (runner record absent, request still live) chooses ABORTED and
updates the job record to ABORTED. -/
theorem stop_job_abort_yields_aborted_witness :
    stopJobNewStatus true (some ⟨JobStatus.downloading⟩) (some jobDownloading)
        (if (some jobDownloading).isSome then none else none)
        (if (some jobDownloading).isSome then RequestStatus.running
         else RequestStatus.terminated) = some JobStatus.aborted
    ∧ ∃ eff, stop_job true (some ⟨JobStatus.downloading⟩) (some jobDownloading) none
        RequestStatus.running = Except.ok eff
      ∧ eff.updatedJob = some { jobDownloading with status := JobStatus.aborted } :=
  stop_job_abort_yields_aborted (some ⟨JobStatus.downloading⟩) (some jobDownloading)
    none RequestStatus.running jobDownloading rfl rfl

/-- C10: when the job-head exists and is unfinished but the full job record is
absent, `stop_job` reaches the job-record update with `job = None` and fails
with an AttributeError assigning the new status, for every abort flag, runner
record and live request status — so `stop_job` is total only when a job record
exists whenever its job-head is unfinished. -/
theorem stop_job_attribute_error_when_job_missing (abort : Bool) (hd : JobHead)
    (runnerStore : Option Runner) (live : RequestStatus)
    (hunf : hd.status.is_unfinished = true) :
    stop_job abort (some hd) none runnerStore live = Except.error "AttributeError" := by
  have hne1 : hd.status ≠ JobStatus.aborted := JobStatus.unfinished_ne_of_finished hunf rfl
  have hne2 : hd.status ≠ JobStatus.stopped := JobStatus.unfinished_ne_of_finished hunf rfl
  cases abort
  · simp [stop_job, anyUnfinished, stopJobNewStatus, noStopEffects, hunf, hne1, hne2]
  · simp [stop_job, anyUnfinished, stopJobNewStatus, noStopEffects, hunf, hne1, hne2]

/-- Witness for `stop_job_attribute_error_when_job_missing` at a RUNNING
job-head with no job record. -/
theorem stop_job_attribute_error_when_job_missing_witness :
    stop_job false (some ⟨JobStatus.running⟩) none none RequestStatus.terminated
      = Except.error "AttributeError" :=
  stop_job_attribute_error_when_job_missing false ⟨JobStatus.running⟩ none
    RequestStatus.terminated rfl

/-- C4: for an interruptible request with a resolvable request id,
`get_request_head` maps the provider spot status code per the fixed table:
"fulfilled" yields RUNNING, "price-too-low" yields NO_CAPACITY,
"instance-terminated-by-user" yields TERMINATED; an empty spot-request list or
a not-found provider error yields TERMINATED; and a code outside the table
raises an internal error rather than being silently mapped. -/
theorem get_request_head_spot_status_table
    (instApi : String → Except PyErr (Option String))
    (runnerStoreGet : Option String → Option Runner)
    (job : Job) (runner : Option Runner)
    (hint : boolTruthy (job.requirements.bind Requirements.interruptible) = true)
    (hrid : strTruthy job.request_id = true) :
    (∀ m, get_request_head (fun _ => .ok [⟨"fulfilled", m⟩]) instApi runnerStoreGet
        job runner = .ok ⟨job.job_id, RequestStatus.running, m⟩)
    ∧ (∀ m, get_request_head (fun _ => .ok [⟨"price-too-low", m⟩]) instApi runnerStoreGet
        job runner = .ok ⟨job.job_id, RequestStatus.no_capacity, m⟩)
    ∧ (∀ m, get_request_head (fun _ => .ok [⟨"instance-terminated-by-user", m⟩]) instApi
        runnerStoreGet job runner = .ok ⟨job.job_id, RequestStatus.terminated, m⟩)
    ∧ get_request_head (fun _ => .ok []) instApi runnerStoreGet job runner
        = .ok ⟨job.job_id, RequestStatus.terminated, none⟩
    ∧ (∀ m, get_request_head (fun _ => .error (.aws "InvalidSpotInstanceRequestID.NotFound" m))
        instApi runnerStoreGet job runner = .ok ⟨job.job_id, RequestStatus.terminated, m⟩)
    ∧ (∀ c m, c ∉ spotCodesRunning → c ∉ spotCodesPending → c ∉ spotCodesNoCapacity →
        c ∉ spotCodesTerminated →
        get_request_head (fun _ => .ok [⟨c, m⟩]) instApi runnerStoreGet job runner
          = .error (.internal
            ("Unsupported EC2 spot instance request status code: " ++ c))) := by
  refine ⟨?_, ?_, ?_, ?_, ?_, ?_⟩
  · intro m
    simp [get_request_head, hint, hrid, spotCodesRunning]
  · intro m
    simp [get_request_head, hint, hrid, spotCodesRunning, spotCodesPending,
      spotCodesNoCapacity]
  · intro m
    simp [get_request_head, hint, hrid, spotCodesRunning, spotCodesPending,
      spotCodesNoCapacity, spotCodesTerminated]
  · simp [get_request_head, hint, hrid]
  · intro m
    simp [get_request_head, hint, hrid, PyErr.code?, PyErr.message?]
  · intro c m h1 h2 h3 h4
    simp [get_request_head, hint, hrid, List.contains, List.elem_eq_mem, h1, h2, h3, h4]

/-- Witness for `get_request_head_spot_status_table`: the concrete
interruptible job `jobSpot` with request id "sir-1"; a "fulfilled" response
maps to RUNNING and an off-table code raises the internal error. -/
theorem get_request_head_spot_status_table_witness :
    get_request_head (fun _ => .ok [⟨"fulfilled", some "ok"⟩]) (fun _ => .ok none)
      (fun _ => none) jobSpot none
      = .ok ⟨jobSpot.job_id, RequestStatus.running, some "ok"⟩
    ∧ get_request_head (fun _ => .ok [⟨"weird-code", none⟩]) (fun _ => .ok none)
      (fun _ => none) jobSpot none
      = .error (.internal
        ("Unsupported EC2 spot instance request status code: " ++ "weird-code")) :=
  ⟨(get_request_head_spot_status_table (fun _ => .ok none) (fun _ => none) jobSpot none
      rfl rfl).1 (some "ok"),
   (get_request_head_spot_status_table (fun _ => .ok none) (fun _ => none) jobSpot none
      rfl rfl).2.2.2.2.2 "weird-code" none (by decide) (by decide) (by decide) (by decide)⟩

end DstackAws
